import Mathlib

/-!
Verification development for the Interview Session Orchestration subsystem
of the EasyJob repository.

The definitions below are a shallow embedding of the TypeScript source:

* the `useInterview` hook (operations `loadExistingSession`, `startInterview`,
  `sendAnswer`, `endInterview`) — the client-side orchestrator for one
  interview session;
* `checkAndStartInterview` and `handleSendMessage` from the resume edit page —
  the resolution step (start-or-resume decision, stale-status auto-finalize,
  continue-vs-discard prompt) and the UI send handler;
* the session-list processing of `fetchInterviewSessions` from the interviews
  dashboard — sorting by creation time and duplicate-session flagging.

Asynchronous network calls are embedded by passing each call's outcome as an
explicit `Except` argument; each operation returns the new hook state together
with the transcript messages emitted via `onMessage`, the error strings
surfaced via `onError`, the list of API calls issued (in order) and the value
returned to the caller.  Message ids and wall-clock timestamps generated by
the source via `Date.now()` are abstracted: a message is its role and content,
and the current time is an explicit `now : Nat` argument (milliseconds).
-/

namespace EasyJob

/-- Stored session status (`'active' | 'completed' | 'paused'`). -/
inductive SessionStatus where
  | active
  | completed
  | paused
deriving DecidableEq, Repr

/-- One question record of a session (`{question, question_type}`). -/
structure InterviewQuestion where
  question : String
  question_type : String
deriving DecidableEq, Repr

/-- One answer record (`{answer, evaluation, question_index}`); the opaque
evaluation payload is embedded as a string. -/
structure AnswerRecord where
  answer : String
  evaluation : String
  question_index : Nat
deriving DecidableEq, Repr

/-- A session as returned by the Session Store's list endpoint
(`GET .../interview/sessions`). -/
structure StoredSession where
  id : Nat
  status : SessionStatus
  questions : List InterviewQuestion
  answers : List AnswerRecord
  created_at : Nat
deriving DecidableEq, Repr

/-- The hook's local mirror of the running session (`InterviewSession` in
`useInterview`). -/
structure LocalSession where
  id : Nat
  resumeId : Nat
  status : SessionStatus
  startTime : Nat
  questions : List InterviewQuestion
  answers : List AnswerRecord
  currentQuestionIndex : Nat
deriving DecidableEq, Repr

/-- Transcript message role (`type: 'user' | 'ai'`). -/
inductive Role where
  | user
  | ai
deriving DecidableEq, Repr

/-- A transcript message event as emitted through `onMessage`. -/
structure ChatMessage where
  type : Role
  content : String
deriving DecidableEq, Repr

/-- The session returned by the Session Store's create endpoint
(`POST .../interview/start`). -/
structure BackendSession where
  id : Nat
  questions : List InterviewQuestion
  answers : List AnswerRecord
deriving DecidableEq, Repr

/-- Response of the Question Supplier (`GET .../interview/{id}/question`). -/
structure NextQuestion where
  question : String
  question_type : String
  question_index : Nat
deriving DecidableEq, Repr

/-- Response of the Answer Evaluator (`POST .../interview/{id}/answer`). -/
structure AnswerEvaluation where
  evaluation : String
  score : Nat
  feedback : String
deriving DecidableEq, Repr

/-- Mutable state of the `useInterview` hook. -/
structure HookState where
  isInterviewActive : Bool
  currentSession : Option LocalSession
  isLoading : Bool
  hasAutoLoaded : Bool
deriving DecidableEq, Repr

/-- An API call issued to an external collaborator, with its arguments. -/
inductive ApiCall where
  | listSessions (resumeId : Nat)
  | createSession (resumeId : Nat) (jobPosition interviewMode jdContent : String)
      (questionCount : Nat)
  | nextQuestion (resumeId sessionId : Nat)
  | submitAnswer (resumeId sessionId : Nat) (answer : String) (questionIndex : Nat)
  | endSession (resumeId sessionId : Nat)
deriving DecidableEq, Repr

/-- Result of running one hook operation to completion: final state, messages
emitted via `onMessage` (in order), errors surfaced via `onError`, API calls
issued (in order), and the operation's return value. -/
structure OpResult where
  state : HookState
  messages : List ChatMessage
  errors : List String
  calls : List ApiCall
  result : Option LocalSession
deriving DecidableEq, Repr

/-- `pat` occurs as a contiguous run of `l` (JS `String.prototype.includes`
on the character list). -/
def containsSub [BEq α] (pat : List α) : List α → Bool
  | [] => pat.isEmpty
  | a :: rest => List.isPrefixOf pat (a :: rest) || containsSub pat rest

/-- JS `s.includes(sub)`. -/
def strIncludes (s sub : String) : Bool :=
  containsSub sub.data s.data

/-! ### Message and error texts from `useInterview` -/

/-- Resume-session welcome when preset questions remain. -/
def continueWelcomeMsg (answered total : Nat) (q : String) : String :=
  "欢迎回到面试！您已完成 " ++ (toString answered ++ ("/" ++ (toString total ++
    (" 题。让我们继续您的面试。\n\n**当前问题：**\n" ++ q))))

/-- Resume-session welcome when every preset question is answered. -/
def resumeAllDoneMsg (answered total : Nat) : String :=
  "欢迎回到面试！您已完成所有预设问题 " ++ (toString answered ++ ("/" ++ (toString total ++
    "。我可以为您提出一些深入的问题，或者您可以选择结束面试。请告诉我您想继续还是结束面试？")))

/-- Resume-session welcome in the anomalous remaining case. -/
def defaultResumeMsg : String :=
  "欢迎回到面试！让我们继续您的面试。"

/-- Display name of an interview mode. -/
def modeDisplay (interviewMode : String) : String :=
  if interviewMode == "comprehensive" then "综合面试"
  else if interviewMode == "technical" then "技术面试"
  else "行为面试"

/-- Welcome message for a fresh session once the first question arrived. -/
def startWelcomeMsg (interviewMode q : String) : String :=
  "您好！我是您的AI面试官。今天我将基于您的简历为您进行" ++ (modeDisplay interviewMode ++
    ("。\n\n" ++ q))

/-- Fallback welcome used when fetching the first question failed. -/
def fallbackWelcomeMsg : String :=
  "您好！我是您的AI面试官。今天我将基于您的简历进行模拟面试。请先做一个简单的自我介绍，包括您的姓名、职位和主要工作经验。"

/-- Message emitted when all preset questions are already answered and a
further answer is submitted: offers to end or to continue. -/
def allPresetDoneMsg : String :=
  "感谢您的回答！您已经完成了所有预设的面试问题。\n\n🎉 恭喜您完成面试！您可以选择结束面试查看详细报告，或者我可以为您提出一些额外的深入问题。请告诉我您的选择。"

/-- Fallback feedback when the evaluator returned empty feedback text. -/
def defaultNextMsg : String :=
  "好的，让我们继续下一个问题。"

/-- End-of-interview summary: answered-question count and elapsed minutes. -/
def endSummaryMsg (count mins : Nat) : String :=
  "面试结束！感谢您的参与。\n\n**面试问题数**: " ++ (toString count ++
    ("\n**面试时长**: " ++ (toString mins ++
      (" 分钟\n\n您可以回到简历编辑页面继续优化简历，或查看面试反馈报告。"))))

/-- Error surfaced when adopting an already-completed session. -/
def completedSessionErr : String :=
  "该面试已经完成，无法继续"

/-- Error surfaced when the end-interview call fails. -/
def endInterviewErr : String :=
  "结束面试时出现错误"

/-- Error classification in `loadExistingSession`'s catch block. -/
def classifyLoadError (msg : String) : String :=
  if strIncludes msg "404" then "面试会话不存在或已被删除"
  else if strIncludes msg "403" then "无权限访问该面试会话"
  else if strIncludes msg "Failed to fetch" then "网络连接失败，请检查网络连接后重试"
  else "加载面试会话失败: " ++ msg

/-- Error classification in `sendAnswer`'s catch block. -/
def classifySendError (msg : String) : String :=
  if strIncludes msg "Load failed" || strIncludes msg "fetch" then
    "网络连接失败，请检查后端服务是否运行"
  else if strIncludes msg "Failed to fetch" then "无法连接到服务器，请检查网络连接"
  else msg

/-! ### The `useInterview` operations -/

/-- `loadExistingSession(sessionId)`: adopt an existing stored session.
`sessionsRes` is the outcome of `interviewApi.getInterviewSessions`. -/
def loadExistingSession (resumeId sessionId : Nat) (s : HookState)
    (sessionsRes : Except String (List StoredSession)) : OpResult :=
  match sessionsRes with
  | .error e =>
      { state := { s with isLoading := false }, messages := [],
        errors := [classifyLoadError e], calls := [.listSessions resumeId],
        result := none }
  | .ok sessions =>
    match sessions.find? (fun t => t.id == sessionId) with
    | none =>
        { state := { s with isLoading := false }, messages := [],
          errors := [classifyLoadError "面试会话不存在"],
          calls := [.listSessions resumeId], result := none }
    | some existing =>
      if existing.status = .completed then
        { state := { s with isLoading := false }, messages := [],
          errors := [completedSessionErr], calls := [.listSessions resumeId],
          result := none }
      else
        let answeredCount := existing.answers.length
        let totalQuestions := existing.questions.length
        let currentQuestionIndex := answeredCount
        let session : LocalSession :=
          { id := sessionId, resumeId := resumeId, status := .active,
            startTime := existing.created_at, questions := existing.questions,
            answers := existing.answers,
            currentQuestionIndex := currentQuestionIndex }
        let welcome : String :=
          if currentQuestionIndex < totalQuestions then
            continueWelcomeMsg answeredCount totalQuestions
              ((existing.questions.getD currentQuestionIndex
                ⟨"", ""⟩).question)
          else if answeredCount = totalQuestions ∧ 0 < totalQuestions then
            resumeAllDoneMsg answeredCount totalQuestions
          else
            defaultResumeMsg
        { state := { s with
                     currentSession := some session
                     isInterviewActive := true
                     isLoading := false },
          messages := [⟨.ai, welcome⟩], errors := [],
          calls := [.listSessions resumeId], result := some session }

/-- JS `x || d` on an optional string (`undefined` and `""` are falsy). -/
def strOrDefault (o : Option String) (d : String) : String :=
  match o with
  | none => d
  | some v => if v == "" then d else v

/-- JS `x || d` on an optional count (`undefined` and `0` are falsy). -/
def natOrDefault (o : Option Nat) (d : Nat) : Nat :=
  match o with
  | none => d
  | some 0 => d
  | some (n + 1) => n + 1

/-- `startInterview(jdContent?, questionCount?)`: start a new session or
re-adopt the configured existing one.  `loadSessionsRes` feeds the reload
path, `createRes` is the outcome of `interviewApi.startInterview`, and
`questionRes` the outcome of `interviewApi.getNextInterviewQuestion` for the
first question.  `now` is `Date.now()` in milliseconds. -/
def startInterview (resumeId : Nat) (existingSessionId : Option Nat)
    (hasAutoLoaded : Bool) (jobPosition : Option String) (interviewMode : String)
    (s : HookState) (jdContent : Option String) (questionCount : Option Nat)
    (loadSessionsRes : Except String (List StoredSession))
    (createRes : Except String BackendSession)
    (questionRes : Except String NextQuestion) (now : Nat) : OpResult :=
  if s.isInterviewActive then
    { state := s, messages := [], errors := [], calls := [],
      result := s.currentSession }
  else
    match existingSessionId with
    | some sid =>
      if hasAutoLoaded then
        loadExistingSession resumeId sid s loadSessionsRes
      else
        { state := s, messages := [], errors := [], calls := [], result := none }
    | none =>
      let createCall : ApiCall :=
        .createSession resumeId (strOrDefault jobPosition "未指定职位")
          interviewMode (strOrDefault jdContent "") (natOrDefault questionCount 10)
      match createRes with
      | .error e =>
          { state := { s with isLoading := false }, messages := [],
            errors := [e], calls := [createCall], result := none }
      | .ok backendSession =>
        let session : LocalSession :=
          { id := backendSession.id, resumeId := resumeId, status := .active,
            startTime := now, questions := backendSession.questions,
            answers := backendSession.answers, currentQuestionIndex := 0 }
        match questionRes with
        | .ok firstQuestion =>
            { state := { s with
                         currentSession :=
                           some { session with
                                  currentQuestionIndex :=
                                    firstQuestion.question_index }
                         isInterviewActive := true
                         isLoading := false },
              messages :=
                [⟨.ai, startWelcomeMsg interviewMode firstQuestion.question⟩],
              errors := [],
              calls := [createCall, .nextQuestion resumeId backendSession.id],
              result := some session }
        | .error _ =>
            { state := { s with
                         currentSession := some session
                         isInterviewActive := true
                         isLoading := false },
              messages := [⟨.ai, fallbackWelcomeMsg⟩], errors := [],
              calls := [createCall, .nextQuestion resumeId backendSession.id],
              result := some session }

/-- `sendAnswer(answer)`: submit one answer.  `evalRes` is the outcome of
`interviewApi.submitInterviewAnswer`. -/
def sendAnswer (resumeId : Nat) (s : HookState) (answer : String)
    (evalRes : Except String AnswerEvaluation) : OpResult :=
  match s.currentSession, s.isInterviewActive with
  | some cur, true =>
    let userMsg : ChatMessage := ⟨.user, answer⟩
    if cur.questions.length ≤ cur.currentQuestionIndex then
      { state := { s with isLoading := false },
        messages := [userMsg, ⟨.ai, allPresetDoneMsg⟩], errors := [],
        calls := [], result := none }
    else
      let call : ApiCall :=
        .submitAnswer resumeId cur.id answer cur.currentQuestionIndex
      match evalRes with
      | .ok evaluation =>
        let feedback : String :=
          if evaluation.feedback == "" then defaultNextMsg
          else evaluation.feedback
        let newSession : LocalSession :=
          { cur with
            currentQuestionIndex := cur.currentQuestionIndex + 1,
            answers := cur.answers ++
              [⟨answer, evaluation.evaluation, cur.currentQuestionIndex⟩] }
        { state := { s with
                     currentSession := some newSession
                     isLoading := false },
          messages := [userMsg, ⟨.ai, feedback⟩], errors := [],
          calls := [call], result := none }
      | .error e =>
        { state := { s with isLoading := false }, messages := [userMsg],
          errors := [classifySendError e], calls := [call], result := none }
  | _, _ =>
    { state := s, messages := [], errors := [], calls := [], result := none }

/-- `endInterview()`: finalize the current session.  `endRes` is the outcome
of `interviewApi.endInterview`; `now` is `Date.now()` in milliseconds. -/
def endInterview (resumeId : Nat) (s : HookState)
    (endRes : Except String Unit) (now : Nat) : OpResult :=
  match s.currentSession with
  | none =>
      { state := s, messages := [], errors := [], calls := [], result := none }
  | some cur =>
    match endRes with
    | .error _ =>
        { state := s, messages := [], errors := [endInterviewErr],
          calls := [.endSession resumeId cur.id], result := none }
    | .ok _ =>
        { state := { s with
                     isInterviewActive := false
                     currentSession := none },
          messages :=
            [⟨.ai, endSummaryMsg cur.answers.length
              ((now - cur.startTime) / 1000 / 60)⟩],
          errors := [], calls := [.endSession resumeId cur.id],
          result := none }

/-! ### Resume edit page: session resolution and the send handler -/

/-- One observable step of the resolution pass (`checkAndStartInterview`) in
the resume edit page: the session-list fetch, end-session calls, the
continue-vs-discard confirmation prompt, adopting an existing session
(setting `interviewConfig.sessionId`), or starting a new interview
(`handleStartInterview`). -/
inductive PageAction where
  | fetchSessions
  | endSessionCall (sessionId : Nat)
  | confirmPrompt (answered total : Nat)
  | adoptSession (sessionId : Nat)
  | startNew
deriving DecidableEq, Repr

/-- `checkAndStartInterview` from the resume edit page, as the ordered list of
actions it performs.  `sessionsRes` is the session-list fetch outcome,
`processedSession` is `processedSessionRef.current`, `shouldContinue` the
user's answer to the `confirm()` prompt, and `discardEndRes` the outcome of
the end-session call in the discard branch.  The end call of the
auto-finalize branch is fire-and-logged: the pass continues to create a new
session whether it succeeds or fails. -/
def checkAndStartInterview (sessionsRes : Except String (List StoredSession))
    (processedSession : Option Nat) (shouldContinue : Bool)
    (discardEndRes : Except String Unit) : List PageAction :=
  PageAction.fetchSessions ::
    (match sessionsRes with
     | .error _ => [.startNew]
     | .ok sessions =>
       match sessions.find? (fun t => t.status == SessionStatus.active) with
       | none => [.startNew]
       | some activeSession =>
         if processedSession == some activeSession.id then [.startNew]
         else
           let answeredCount := activeSession.answers.length
           let totalQuestions := activeSession.questions.length
           if totalQuestions ≤ answeredCount ∧ 0 < totalQuestions then
             [.endSessionCall activeSession.id, .startNew]
           else if shouldContinue then
             [.confirmPrompt answeredCount totalQuestions,
              .adoptSession activeSession.id]
           else
             match discardEndRes with
             | .ok _ =>
                 [.confirmPrompt answeredCount totalQuestions,
                  .endSessionCall activeSession.id, .startNew]
             | .error _ =>
                 [.confirmPrompt answeredCount totalQuestions,
                  .endSessionCall activeSession.id])

/-- JS `String.prototype.trim`. -/
def jsTrim (s : String) : String :=
  ⟨((s.data.dropWhile Char.isWhitespace).reverse.dropWhile
      Char.isWhitespace).reverse⟩

/-- Observable outcome of the page's `handleSendMessage`. -/
structure SendHandlerResult where
  sendAnswerCalled : Bool
  answerSent : Option String
  inputCleared : Bool
  errorsShown : List String
deriving DecidableEq, Repr

/-- `handleSendMessage` from the resume edit page.  `interviewLoading` is the
hook's loading flag; `sendFails` models the `await sendAnswer(...)` call
rejecting. -/
def handleSendMessage (inputMessage : String) (interviewLoading : Bool)
    (sendFails : Bool) : SendHandlerResult :=
  if jsTrim inputMessage == "" || interviewLoading then
    { sendAnswerCalled := false, answerSent := none, inputCleared := false,
      errorsShown := [] }
  else
    let currentMessage := jsTrim inputMessage
    if sendFails then
      { sendAnswerCalled := true, answerSent := some currentMessage,
        inputCleared := true, errorsShown := ["发送消息失败，请重试"] }
    else
      { sendAnswerCalled := true, answerSent := some currentMessage,
        inputCleared := true, errorsShown := [] }

/-! ### Interviews dashboard: session-list reconciliation -/

/-- A session row as processed by the interviews dashboard (only the fields
the reconciliation step reads). -/
structure DashboardSession where
  id : Nat
  resume_id : Nat
  status : SessionStatus
  created_at : Nat
deriving DecidableEq, Repr

/-- Duplicate detection of `fetchInterviewSessions`: an `active` session is
flagged when another `active` session of the same resume was created
strictly later. -/
def markDuplicate (allSessions : List DashboardSession)
    (session : DashboardSession) : Bool :=
  let duplicateActiveSessions := allSessions.filter (fun t =>
    t.resume_id == session.resume_id && t.status == SessionStatus.active &&
      t.id != session.id)
  if session.status == SessionStatus.active &&
      !duplicateActiveSessions.isEmpty then
    duplicateActiveSessions.any (fun t => session.created_at < t.created_at)
  else
    false

/-- `allSessions.sort((a, b) => b.created_at - a.created_at)`: sort by
creation time, newest first. -/
def sortSessionsByCreatedDesc (l : List DashboardSession) :
    List DashboardSession :=
  l.mergeSort (fun a b => decide (b.created_at ≤ a.created_at))

/-- The processing step of `fetchInterviewSessions`: sort the collected
sessions by `created_at` descending, then pair each with its
`isPossibleDuplicate` flag. -/
def fetchInterviewSessions (l : List DashboardSession) :
    List (DashboardSession × Bool) :=
  let sorted := sortSessionsByCreatedDesc l
  sorted.map (fun session => (session, markDuplicate sorted session))

/-! ### Concrete fixtures used by the closed witness statements -/

/-- A concrete first question. -/
def q0 : InterviewQuestion := ⟨"请做一个自我介绍", "behavioral"⟩

/-- A concrete second question. -/
def q1 : InterviewQuestion := ⟨"介绍一个你主导的项目", "technical"⟩

/-- A concrete local session: two questions, nothing answered yet. -/
def cur0 : LocalSession := ⟨7, 1, .active, 1000, [q0, q1], [], 0⟩

/-- A concrete hook state holding `cur0` with the interview active. -/
def s0 : HookState := ⟨true, some cur0, false, true⟩

/-- A concrete evaluator response with non-empty feedback. -/
def ev0 : AnswerEvaluation :=
  ⟨"良好", 80, "回答得不错，下一个问题：介绍一个你主导的项目"⟩

/-! ### Claim theorems -/

/-- C10: calling `startInterview` while an interview is already active
returns the existing current session unchanged, performs no Session Store
call, and creates no new session. -/
theorem startInterview_idempotent_while_active (resumeId : Nat)
    (existingSessionId : Option Nat) (hasAutoLoaded : Bool)
    (jobPosition : Option String) (interviewMode : String) (s : HookState)
    (jdContent : Option String) (questionCount : Option Nat)
    (loadSessionsRes : Except String (List StoredSession))
    (createRes : Except String BackendSession)
    (questionRes : Except String NextQuestion) (now : Nat)
    (hact : s.isInterviewActive = true) :
    startInterview resumeId existingSessionId hasAutoLoaded jobPosition
      interviewMode s jdContent questionCount loadSessionsRes createRes
      questionRes now =
      { state := s, messages := [], errors := [], calls := [],
        result := s.currentSession } := by
  simp [startInterview, hact]

/-- Witness for C10 at a concrete active state. -/
theorem startInterview_idempotent_while_active_witness :
    startInterview 1 none true (some "前端工程师") "comprehensive" s0 none none
      (.error "网络错误") (.error "网络错误") (.error "网络错误") 2000 =
      { state := s0, messages := [], errors := [], calls := [],
        result := some cur0 } :=
  startInterview_idempotent_while_active 1 none true (some "前端工程师")
    "comprehensive" s0 none none (.error "网络错误") (.error "网络错误")
    (.error "网络错误") 2000 rfl

/-- C2: for an active session with `currentQuestionIndex <
questions.length`, a successful submission calls the Answer Evaluator with
the answer and the current question index (and makes no other call, in
particular no next-question fetch), appends exactly one answer record
carrying the pre-call index, increments `currentQuestionIndex` by one, and
emits the evaluator's feedback text as the next transcript message. -/
theorem sendAnswer_advances (resumeId : Nat) (s : HookState)
    (cur : LocalSession) (answer : String) (ev : AnswerEvaluation)
    (hcur : s.currentSession = some cur)
    (hact : s.isInterviewActive = true)
    (hlt : cur.currentQuestionIndex < cur.questions.length)
    (hfb : ev.feedback ≠ "") :
    (sendAnswer resumeId s answer (.ok ev)).calls =
      [.submitAnswer resumeId cur.id answer cur.currentQuestionIndex] ∧
    (sendAnswer resumeId s answer (.ok ev)).state.currentSession =
      some { cur with
             currentQuestionIndex := cur.currentQuestionIndex + 1
             answers := cur.answers ++
               [⟨answer, ev.evaluation, cur.currentQuestionIndex⟩] } ∧
    (cur.answers ++
      [(⟨answer, ev.evaluation, cur.currentQuestionIndex⟩ : AnswerRecord)]).length =
      cur.answers.length + 1 ∧
    (sendAnswer resumeId s answer (.ok ev)).messages =
      [⟨.user, answer⟩, ⟨.ai, ev.feedback⟩] ∧
    (sendAnswer resumeId s answer (.ok ev)).errors = [] := by
  have hnotle : ¬ cur.questions.length ≤ cur.currentQuestionIndex :=
    Nat.not_le.mpr hlt
  simp [sendAnswer, hcur, hact, hnotle, hfb]

/-- Witness for C2: submitting the first answer on `s0`. -/
theorem sendAnswer_advances_witness :
    (sendAnswer 1 s0 "我叫李雷" (.ok ev0)).calls =
      [.submitAnswer 1 7 "我叫李雷" 0] ∧
    (sendAnswer 1 s0 "我叫李雷" (.ok ev0)).state.currentSession =
      some { cur0 with
             currentQuestionIndex := 1
             answers := [⟨"我叫李雷", "良好", 0⟩] } ∧
    (([] : List AnswerRecord) ++ [(⟨"我叫李雷", "良好", 0⟩ : AnswerRecord)]).length = 0 + 1 ∧
    (sendAnswer 1 s0 "我叫李雷" (.ok ev0)).messages =
      [⟨.user, "我叫李雷"⟩, ⟨.ai, ev0.feedback⟩] ∧
    (sendAnswer 1 s0 "我叫李雷" (.ok ev0)).errors = [] :=
  sendAnswer_advances 1 s0 cur0 "我叫李雷" ev0 rfl rfl (by decide) (by decide)

/-- C3: for an active session whose preset questions are exhausted
(`currentQuestionIndex >= questions.length`), submitting an answer issues no
Answer Evaluator call, emits the "all preset questions complete" message
offering to end or continue, leaves the local session (answers and index)
unchanged, and the session stays active. -/
theorem sendAnswer_exhausted_no_eval (resumeId : Nat) (s : HookState)
    (cur : LocalSession) (answer : String)
    (evalRes : Except String AnswerEvaluation)
    (hcur : s.currentSession = some cur)
    (hact : s.isInterviewActive = true)
    (hge : cur.questions.length ≤ cur.currentQuestionIndex) :
    (sendAnswer resumeId s answer evalRes).calls = [] ∧
    (sendAnswer resumeId s answer evalRes).messages =
      [⟨.user, answer⟩, ⟨.ai, allPresetDoneMsg⟩] ∧
    (sendAnswer resumeId s answer evalRes).state.currentSession = some cur ∧
    (sendAnswer resumeId s answer evalRes).state.isInterviewActive = true ∧
    (sendAnswer resumeId s answer evalRes).errors = [] := by
  simp [sendAnswer, hcur, hact, hge]

/-- A concrete exhausted session: one question, one answer recorded. -/
def cur1 : LocalSession := ⟨8, 1, .active, 1000, [q0], [⟨"我叫李雷", "良好", 0⟩], 1⟩

/-- A concrete hook state holding the exhausted session `cur1`. -/
def s1 : HookState := ⟨true, some cur1, false, true⟩

/-- Witness for C3 on the exhausted session `cur1`. -/
theorem sendAnswer_exhausted_no_eval_witness :
    (sendAnswer 1 s1 "再答一题" (.ok ev0)).calls = [] ∧
    (sendAnswer 1 s1 "再答一题" (.ok ev0)).messages =
      [⟨.user, "再答一题"⟩, ⟨.ai, allPresetDoneMsg⟩] ∧
    (sendAnswer 1 s1 "再答一题" (.ok ev0)).state.currentSession = some cur1 ∧
    (sendAnswer 1 s1 "再答一题" (.ok ev0)).state.isInterviewActive = true ∧
    (sendAnswer 1 s1 "再答一题" (.ok ev0)).errors = [] :=
  sendAnswer_exhausted_no_eval 1 s1 cur1 "再答一题" (.ok ev0) rfl rfl
    (by decide)

/-- C4: if the Answer Evaluator call fails, `answers` and
`currentQuestionIndex` are unchanged, an error is surfaced, and retrying the
same submission after a subsequent success appends exactly one answer
record. -/
theorem sendAnswer_failure_no_partial_append (resumeId : Nat) (s : HookState)
    (cur : LocalSession) (answer : String) (e : String)
    (ev : AnswerEvaluation)
    (hcur : s.currentSession = some cur)
    (hact : s.isInterviewActive = true)
    (hlt : cur.currentQuestionIndex < cur.questions.length) :
    (sendAnswer resumeId s answer (.error e)).state.currentSession =
      some cur ∧
    (sendAnswer resumeId s answer (.error e)).state.isInterviewActive =
      true ∧
    (sendAnswer resumeId s answer (.error e)).errors =
      [classifySendError e] ∧
    (sendAnswer resumeId
        (sendAnswer resumeId s answer (.error e)).state answer
        (.ok ev)).state.currentSession =
      some { cur with
             currentQuestionIndex := cur.currentQuestionIndex + 1
             answers := cur.answers ++
               [⟨answer, ev.evaluation, cur.currentQuestionIndex⟩] } ∧
    (cur.answers ++
      [(⟨answer, ev.evaluation, cur.currentQuestionIndex⟩ : AnswerRecord)]).length =
      cur.answers.length + 1 := by
  have hnotle : ¬ cur.questions.length ≤ cur.currentQuestionIndex :=
    Nat.not_le.mpr hlt
  simp [sendAnswer, hcur, hact, hnotle]

/-- Witness for C4: a failed then retried first submission on `s0`. -/
theorem sendAnswer_failure_no_partial_append_witness :
    (sendAnswer 1 s0 "我叫李雷" (.error "Failed to fetch")).state.currentSession =
      some cur0 ∧
    (sendAnswer 1 s0 "我叫李雷"
        (.error "Failed to fetch")).state.isInterviewActive = true ∧
    (sendAnswer 1 s0 "我叫李雷" (.error "Failed to fetch")).errors =
      [classifySendError "Failed to fetch"] ∧
    (sendAnswer 1
        (sendAnswer 1 s0 "我叫李雷" (.error "Failed to fetch")).state "我叫李雷"
        (.ok ev0)).state.currentSession =
      some { cur0 with
             currentQuestionIndex := 1
             answers := [⟨"我叫李雷", "良好", 0⟩] } ∧
    (([] : List AnswerRecord) ++ [(⟨"我叫李雷", "良好", 0⟩ : AnswerRecord)]).length = 0 + 1 :=
  sendAnswer_failure_no_partial_append 1 s0 cur0 "我叫李雷" "Failed to fetch"
    ev0 rfl rfl (by decide)

/-- C6: resolving with a caller-specified session id whose stored status is
`completed` fails with the already-completed error, adopts no session (the
local mirror and active flag are untouched), and issues no create call (only
the session-list read). -/
theorem loadExistingSession_completed_rejected (resumeId sessionId : Nat)
    (s : HookState) (sessions : List StoredSession)
    (existing : StoredSession)
    (hfind : sessions.find? (fun t => t.id == sessionId) = some existing)
    (hcomp : existing.status = .completed) :
    (loadExistingSession resumeId sessionId s (.ok sessions)).errors =
      [completedSessionErr] ∧
    (loadExistingSession resumeId sessionId s (.ok sessions)).result =
      none ∧
    (loadExistingSession resumeId sessionId s
      (.ok sessions)).state.currentSession = s.currentSession ∧
    (loadExistingSession resumeId sessionId s
      (.ok sessions)).state.isInterviewActive = s.isInterviewActive ∧
    (loadExistingSession resumeId sessionId s (.ok sessions)).calls =
      [.listSessions resumeId] ∧
    (loadExistingSession resumeId sessionId s (.ok sessions)).messages =
      [] := by
  simp [loadExistingSession, hfind, hcomp]

/-- A concrete completed stored session. -/
def stComp : StoredSession := ⟨7, .completed, [q0], [⟨"我叫李雷", "良好", 0⟩], 500⟩

/-- A concrete idle hook state. -/
def sIdle : HookState := ⟨false, none, false, false⟩

/-- Witness for C6: adopting the completed stored session `stComp`. -/
theorem loadExistingSession_completed_rejected_witness :
    (loadExistingSession 1 7 sIdle (.ok [stComp])).errors =
      [completedSessionErr] ∧
    (loadExistingSession 1 7 sIdle (.ok [stComp])).result = none ∧
    (loadExistingSession 1 7 sIdle (.ok [stComp])).state.currentSession =
      sIdle.currentSession ∧
    (loadExistingSession 1 7 sIdle (.ok [stComp])).state.isInterviewActive =
      sIdle.isInterviewActive ∧
    (loadExistingSession 1 7 sIdle (.ok [stComp])).calls =
      [.listSessions 1] ∧
    (loadExistingSession 1 7 sIdle (.ok [stComp])).messages = [] :=
  loadExistingSession_completed_rejected 1 7 sIdle [stComp] stComp
    (by decide) rfl

/-- C5: ending an active interview calls the Session Store's end endpoint,
emits a summary message containing the answered-question count and the
elapsed minutes, and clears the local mirror; if the end call fails, the
mirror and active flag are untouched and an error is surfaced, so the retry
behaves exactly like a fresh successful end. -/
theorem endInterview_finalize_and_retryable (resumeId : Nat) (s : HookState)
    (cur : LocalSession) (e : String) (now : Nat)
    (hcur : s.currentSession = some cur) :
    (endInterview resumeId s (.ok ()) now).calls =
      [.endSession resumeId cur.id] ∧
    (endInterview resumeId s (.ok ()) now).state.isInterviewActive =
      false ∧
    (endInterview resumeId s (.ok ()) now).state.currentSession = none ∧
    (endInterview resumeId s (.ok ()) now).messages =
      [⟨.ai, endSummaryMsg cur.answers.length
        ((now - cur.startTime) / 1000 / 60)⟩] ∧
    (∃ a b : String,
      endSummaryMsg cur.answers.length ((now - cur.startTime) / 1000 / 60) =
        a ++ (toString cur.answers.length ++ b)) ∧
    (∃ a b : String,
      endSummaryMsg cur.answers.length ((now - cur.startTime) / 1000 / 60) =
        a ++ (toString ((now - cur.startTime) / 1000 / 60) ++ b)) ∧
    (endInterview resumeId s (.error e) now).state = s ∧
    (endInterview resumeId s (.error e) now).errors = [endInterviewErr] ∧
    (endInterview resumeId s (.error e) now).calls =
      [.endSession resumeId cur.id] ∧
    endInterview resumeId (endInterview resumeId s (.error e) now).state
      (.ok ()) now = endInterview resumeId s (.ok ()) now := by
  refine ⟨by simp [endInterview, hcur], by simp [endInterview, hcur],
    by simp [endInterview, hcur], by simp [endInterview, hcur],
    ⟨"面试结束！感谢您的参与。\n\n**面试问题数**: ",
     "\n**面试时长**: " ++ (toString ((now - cur.startTime) / 1000 / 60) ++
       " 分钟\n\n您可以回到简历编辑页面继续优化简历，或查看面试反馈报告。"), rfl⟩,
    ⟨"面试结束！感谢您的参与。\n\n**面试问题数**: " ++
       (toString cur.answers.length ++ "\n**面试时长**: "),
     " 分钟\n\n您可以回到简历编辑页面继续优化简历，或查看面试反馈报告。",
     by simp [endSummaryMsg, String.append_assoc]⟩,
    by simp [endInterview, hcur], by simp [endInterview, hcur],
    by simp [endInterview, hcur], by simp [endInterview, hcur]⟩

/-- Witness for C5: ending the interview held by `s1`. -/
theorem endInterview_finalize_and_retryable_witness :
    (endInterview 1 s1 (.ok ()) 181000).calls = [.endSession 1 8] ∧
    (endInterview 1 s1 (.ok ()) 181000).state.isInterviewActive = false ∧
    (endInterview 1 s1 (.ok ()) 181000).state.currentSession = none ∧
    (endInterview 1 s1 (.ok ()) 181000).messages =
      [⟨.ai, endSummaryMsg cur1.answers.length
        ((181000 - cur1.startTime) / 1000 / 60)⟩] ∧
    (∃ a b : String,
      endSummaryMsg cur1.answers.length ((181000 - cur1.startTime) / 1000 / 60) =
        a ++ (toString cur1.answers.length ++ b)) ∧
    (∃ a b : String,
      endSummaryMsg cur1.answers.length ((181000 - cur1.startTime) / 1000 / 60) =
        a ++ (toString ((181000 - cur1.startTime) / 1000 / 60) ++ b)) ∧
    (endInterview 1 s1 (.error "超时") 181000).state = s1 ∧
    (endInterview 1 s1 (.error "超时") 181000).errors = [endInterviewErr] ∧
    (endInterview 1 s1 (.error "超时") 181000).calls = [.endSession 1 8] ∧
    endInterview 1 (endInterview 1 s1 (.error "超时") 181000).state
      (.ok ()) 181000 = endInterview 1 s1 (.ok ()) 181000 :=
  endInterview_finalize_and_retryable 1 s1 cur1 "超时" 181000 rfl

/-- The hook's local-mirror invariant: when a session is held,
`answers.length == currentQuestionIndex`. -/
def answersMatchIndex (s : HookState) : Bool :=
  s.currentSession.all
    (fun sess => sess.answers.length == sess.currentQuestionIndex)

/-- Session Store contract (§6 `createSession`): a freshly created session
has no answers yet. -/
def createKeepsFreshAnswers (r : Except String BackendSession) : Bool :=
  match r with
  | .ok bs => bs.answers.isEmpty
  | .error _ => true

/-- Question Supplier contract (§6 `nextQuestion`): the first question of a
fresh session carries index 0. -/
def firstQuestionAtZero (r : Except String NextQuestion) : Bool :=
  match r with
  | .ok q => q.question_index == 0
  | .error _ => true

/-- `loadExistingSession` establishes the local-mirror invariant: on success
it sets `currentQuestionIndex` to `answers.length`, and on failure it leaves
the mirror untouched. -/
theorem loadExistingSession_answersMatchIndex (resumeId sessionId : Nat)
    (s : HookState) (res : Except String (List StoredSession))
    (h : answersMatchIndex s = true) :
    answersMatchIndex (loadExistingSession resumeId sessionId s res).state =
      true := by
  cases res with
  | error e => simpa [loadExistingSession, answersMatchIndex] using h
  | ok sessions =>
    cases hf : sessions.find? (fun t => t.id == sessionId) with
    | none => simpa [loadExistingSession, hf, answersMatchIndex] using h
    | some existing =>
      by_cases hst : existing.status = .completed
      · simpa [loadExistingSession, hf, hst, answersMatchIndex] using h
      · simp [loadExistingSession, hf, hst, answersMatchIndex]

/-- C1: each of the orchestrator's operations (adopting an existing session,
starting a new one, submitting an answer) preserves the local-mirror
invariant `answers.length == currentQuestionIndex`, given the collaborators'
contracts: a freshly created session has no answers and the first supplied
question carries index 0. -/
theorem orchestrator_answers_length_invariant (resumeId sessionId : Nat)
    (existingSessionId : Option Nat) (hasAutoLoaded : Bool)
    (jobPosition : Option String) (interviewMode : String) (s : HookState)
    (jdContent : Option String) (questionCount : Option Nat)
    (sessionsRes loadSessionsRes : Except String (List StoredSession))
    (createRes : Except String BackendSession)
    (questionRes : Except String NextQuestion) (now : Nat)
    (answer : String) (evalRes : Except String AnswerEvaluation)
    (h : answersMatchIndex s = true)
    (hc : createKeepsFreshAnswers createRes = true)
    (hq : firstQuestionAtZero questionRes = true) :
    answersMatchIndex
      (loadExistingSession resumeId sessionId s sessionsRes).state = true ∧
    answersMatchIndex
      (startInterview resumeId existingSessionId hasAutoLoaded jobPosition
        interviewMode s jdContent questionCount loadSessionsRes createRes
        questionRes now).state = true ∧
    answersMatchIndex (sendAnswer resumeId s answer evalRes).state = true := by
  refine ⟨loadExistingSession_answersMatchIndex resumeId sessionId s
    sessionsRes h, ?_, ?_⟩
  · by_cases hact : s.isInterviewActive
    · simpa [startInterview, hact] using h
    · cases existingSessionId with
      | some sid =>
        by_cases hal : hasAutoLoaded
        · simpa [startInterview, hact, hal] using
            loadExistingSession_answersMatchIndex resumeId sid s
              loadSessionsRes h
        · simpa [startInterview, hact, hal] using h
      | none =>
        cases createRes with
        | error e => simpa [startInterview, hact] using h
        | ok bs =>
          have hbs : bs.answers = [] := by
            simpa [createKeepsFreshAnswers, List.isEmpty_iff] using hc
          cases questionRes with
          | ok q =>
            have hq0 : q.question_index = 0 := by
              simpa [firstQuestionAtZero] using hq
            simp [startInterview, hact, answersMatchIndex, hbs, hq0]
          | error e =>
            simp [startInterview, hact, answersMatchIndex, hbs]
  · cases hcs : s.currentSession with
    | none => simpa [sendAnswer, hcs] using h
    | some cur =>
      by_cases hact : s.isInterviewActive
      · by_cases hge : cur.questions.length ≤ cur.currentQuestionIndex
        · simpa [sendAnswer, hcs, hact, hge, answersMatchIndex] using h
        · cases evalRes with
          | error e =>
            simpa [sendAnswer, hcs, hact, hge, answersMatchIndex] using h
          | ok ev =>
            have hcur : cur.answers.length = cur.currentQuestionIndex := by
              simpa [answersMatchIndex, hcs] using h
            simp [sendAnswer, hcs, hact, hge, answersMatchIndex, hcur]
      · simpa [sendAnswer, hcs, hact] using h

/-- A concrete active stored session matching `cur0`. -/
def stAct : StoredSession := ⟨7, .active, [q0, q1], [], 500⟩

/-- A concrete fresh backend session. -/
def bs0 : BackendSession := ⟨9, [q0, q1], []⟩

/-- A concrete first-question response with index 0. -/
def nq0 : NextQuestion := ⟨"请做一个自我介绍", "behavioral", 0⟩

/-- Witness for C1 at concrete inputs: an idle state adopting `stAct`,
starting against `bs0`/`nq0`, and submitting an answer on `s0`. -/
theorem orchestrator_answers_length_invariant_witness :
    answersMatchIndex (loadExistingSession 1 7 s0 (.ok [stAct])).state =
      true ∧
    answersMatchIndex
      (startInterview 1 none true (some "前端工程师") "comprehensive" s0 none
        none (.ok [stAct]) (.ok bs0) (.ok nq0) 2000).state = true ∧
    answersMatchIndex (sendAnswer 1 s0 "我叫李雷" (.ok ev0)).state = true :=
  orchestrator_answers_length_invariant 1 7 none true (some "前端工程师")
    "comprehensive" s0 none none (.ok [stAct]) (.ok [stAct]) (.ok bs0)
    (.ok nq0) 2000 "我叫李雷" (.ok ev0) (by decide) (by decide) (by decide)

/-- C7: during resolution without a caller-specified session id, an existing
`active` session that is actually finished (`answers.length >=
questions.length` and `questions.length > 0`) is auto-finalized — the
end-session call is issued — without any confirmation prompt, and the pass
then proceeds to create a new session. -/
theorem checkAndStartInterview_autoFinalizes (sessions : List StoredSession)
    (activeSession : StoredSession) (processedSession : Option Nat)
    (shouldContinue : Bool) (discardEndRes : Except String Unit)
    (hfind : sessions.find? (fun t => t.status == SessionStatus.active) =
      some activeSession)
    (hps : processedSession ≠ some activeSession.id)
    (hdone : activeSession.questions.length ≤ activeSession.answers.length)
    (hpos : 0 < activeSession.questions.length) :
    checkAndStartInterview (.ok sessions) processedSession shouldContinue
      discardEndRes =
      [.fetchSessions, .endSessionCall activeSession.id, .startNew] := by
  simp [checkAndStartInterview, hfind, hps, hdone, hpos]

/-- A concrete stale-status stored session: still `active` but with every
question answered. -/
def stStale : StoredSession := ⟨12, .active, [q0], [⟨"我叫李雷", "良好", 0⟩], 600⟩

/-- Witness for C7: resolving against the stale session `stStale`. -/
theorem checkAndStartInterview_autoFinalizes_witness :
    checkAndStartInterview (.ok [stComp, stStale]) none false (.ok ()) =
      [.fetchSessions, .endSessionCall 12, .startNew] :=
  checkAndStartInterview_autoFinalizes [stComp, stStale] stStale none false
    (.ok ()) (by decide) (by decide) (by decide) (by decide)

/-- A concrete busy hook state: a mutating operation is in flight
(`isLoading = true`) while `cur0` is held and active. -/
def sBusy : HookState := ⟨true, some cur0, true, true⟩

/-- C9 counterexample: while an operation is in flight (`isLoading = true`),
a second `sendAnswer` is not rejected — it issues the Answer Evaluator call
and surfaces no error — and the page's send handler drops a concurrent send
silently, surfacing no error either; no `SessionBusy` rejection occurs
anywhere. -/
theorem sessionBusy_not_enforced_cex :
    (sendAnswer 1 sBusy "第二条消息" (.ok ev0)).calls =
      [.submitAnswer 1 7 "第二条消息" 0] ∧
    (sendAnswer 1 sBusy "第二条消息" (.ok ev0)).errors = [] ∧
    (handleSendMessage "第二条消息" true false).sendAnswerCalled = false ∧
    (handleSendMessage "第二条消息" true false).errorsShown = [] := by
  exact ⟨rfl, rfl, rfl, rfl⟩

/-- C9 (amended): the hook does not reject a second mutating request — the
observable outcome of `sendAnswer` is independent of the in-flight flag
`isLoading` — and the only concurrency guard is the page's send handler,
which, while `interviewLoading` is true, silently drops the request: it
calls nothing, clears nothing and surfaces no error. -/
theorem sendAnswer_unguarded_and_handler_drops (resumeId : Nat)
    (s : HookState) (answer : String)
    (evalRes : Except String AnswerEvaluation) (b sendFails : Bool)
    (msg : String) :
    (sendAnswer resumeId { s with isLoading := b } answer evalRes).calls =
      (sendAnswer resumeId s answer evalRes).calls ∧
    (sendAnswer resumeId { s with isLoading := b } answer evalRes).errors =
      (sendAnswer resumeId s answer evalRes).errors ∧
    (sendAnswer resumeId { s with isLoading := b } answer
        evalRes).messages =
      (sendAnswer resumeId s answer evalRes).messages ∧
    (sendAnswer resumeId { s with isLoading := b } answer
        evalRes).state.currentSession =
      (sendAnswer resumeId s answer evalRes).state.currentSession ∧
    (handleSendMessage msg true sendFails).sendAnswerCalled = false ∧
    (handleSendMessage msg true sendFails).answerSent = none ∧
    (handleSendMessage msg true sendFails).inputCleared = false ∧
    (handleSendMessage msg true sendFails).errorsShown = [] := by
  refine ⟨?_, ?_, ?_, ?_, ?_, ?_, ?_, ?_⟩ <;>
    first
      | (cases hcs : s.currentSession <;>
          cases hact : s.isInterviewActive <;>
          simp [sendAnswer, hcs, hact])
      | simp [handleSendMessage]

/-- A newer active dashboard session of resume 5. -/
def dsNew : DashboardSession := ⟨21, 5, .active, 9000⟩

/-- An older active dashboard session of resume 5. -/
def dsOld : DashboardSession := ⟨20, 5, .active, 8000⟩

/-- C8: the processed session list is sorted by `created_at` descending, an
`active` session older than another `active` session of the same resume is
flagged `possibleDuplicate`, and the most-recently-created `active` session
of the resume is left unflagged. -/
theorem fetchInterviewSessions_sorted_and_flags (l : List DashboardSession)
    (s t : DashboardSession)
    (hs : s ∈ l) (ht : t ∈ l)
    (hres : s.resume_id = t.resume_id)
    (hsa : s.status = .active) (hta : t.status = .active)
    (hid : s.id ≠ t.id)
    (hlt : s.created_at < t.created_at)
    (hmax : ∀ u ∈ l, u.resume_id = t.resume_id → u.status = .active →
      u.created_at ≤ t.created_at) :
    (fetchInterviewSessions l).Pairwise
      (fun a b => b.1.created_at ≤ a.1.created_at) ∧
    (s, true) ∈ fetchInterviewSessions l ∧
    (t, false) ∈ fetchInterviewSessions l := by
  have hsortmem : ∀ x : DashboardSession,
      x ∈ sortSessionsByCreatedDesc l ↔ x ∈ l := by
    intro x
    simp [sortSessionsByCreatedDesc]
  have hsorted : (sortSessionsByCreatedDesc l).Pairwise
      (fun a b => b.created_at ≤ a.created_at) := by
    have h := @List.sorted_mergeSort DashboardSession
      (fun a b : DashboardSession =>
        decide (b.created_at ≤ a.created_at))
      (fun a b c hab hbc => by
        simp only [decide_eq_true_eq] at hab hbc ⊢
        omega)
      (fun a b => by
        simp only [Bool.or_eq_true, decide_eq_true_eq]
        omega)
      l
    exact h.imp (fun hab => by simpa using hab)
  refine ⟨?_, ?_, ?_⟩
  · unfold fetchInterviewSessions
    rw [List.pairwise_map]
    exact hsorted
  · unfold fetchInterviewSessions
    refine List.mem_map.mpr ⟨s, (hsortmem s).mpr hs, ?_⟩
    have htmem : t ∈ (sortSessionsByCreatedDesc l).filter (fun u =>
        u.resume_id == s.resume_id && u.status == SessionStatus.active &&
          u.id != s.id) := by
      refine List.mem_filter.mpr ⟨(hsortmem t).mpr ht, ?_⟩
      simp [hres.symm, hta, bne_iff_ne, Ne.symm hid]
    have hflag : markDuplicate (sortSessionsByCreatedDesc l) s = true := by
      unfold markDuplicate
      have hcond : (s.status == SessionStatus.active &&
          !((sortSessionsByCreatedDesc l).filter (fun u =>
            u.resume_id == s.resume_id &&
              u.status == SessionStatus.active && u.id != s.id)).isEmpty) =
          true := by
        simp only [Bool.and_eq_true, Bool.not_eq_true', beq_iff_eq, hsa,
          true_and]
        rw [← Bool.not_eq_true]
        simp only [List.isEmpty_iff]
        exact fun hnil => (List.ne_nil_of_mem htmem) hnil
      rw [if_pos hcond]
      refine List.any_eq_true.mpr ⟨t, htmem, ?_⟩
      simpa using hlt
    rw [hflag]
  · unfold fetchInterviewSessions
    refine List.mem_map.mpr ⟨t, (hsortmem t).mpr ht, ?_⟩
    have hflag : markDuplicate (sortSessionsByCreatedDesc l) t = false := by
      unfold markDuplicate
      have hany : ((sortSessionsByCreatedDesc l).filter (fun u =>
          u.resume_id == t.resume_id && u.status == SessionStatus.active &&
            u.id != t.id)).any
          (fun u => t.created_at < u.created_at) = false := by
        rw [← Bool.not_eq_true, List.any_eq_true]
        rintro ⟨u, humem, hu⟩
        have hu2 := List.mem_filter.mp humem
        have hul : u ∈ l := (hsortmem u).mp hu2.1
        have hpred := hu2.2
        simp only [Bool.and_eq_true, beq_iff_eq, bne_iff_ne] at hpred
        have hle := hmax u hul hpred.1.1 hpred.1.2
        simp only [decide_eq_true_eq] at hu
        omega
      by_cases hcond : (t.status == SessionStatus.active &&
          !((sortSessionsByCreatedDesc l).filter (fun u =>
            u.resume_id == t.resume_id &&
              u.status == SessionStatus.active && u.id != t.id)).isEmpty) =
          true
      · rw [if_pos hcond]
        exact hany
      · rw [if_neg hcond]
    rw [hflag]

/-- Witness for C8: two active sessions of resume 5, `dsOld` created before
`dsNew`. -/
theorem fetchInterviewSessions_sorted_and_flags_witness :
    (fetchInterviewSessions [dsOld, dsNew]).Pairwise
      (fun a b => b.1.created_at ≤ a.1.created_at) ∧
    (dsOld, true) ∈ fetchInterviewSessions [dsOld, dsNew] ∧
    (dsNew, false) ∈ fetchInterviewSessions [dsOld, dsNew] :=
  fetchInterviewSessions_sorted_and_flags [dsOld, dsNew] dsOld dsNew
    (by decide) (by decide) (by decide) (by decide) (by decide) (by decide)
    (by decide) (by decide)

end EasyJob
